import Mathlib

/-!
Verification of the per-group game state machine of the number-game bot
(`app.py`).  The bot stores, per group, the keys
`group:{id}:current_number`, `group:{id}:channel_id`,
`group:{id}:message_history` (a hash field → link) and
`group:{id}:user_submissions:{user}` (a set of integers) in Redis, and the
handlers `submit`, `public_channel` (the `complete_init` step of the
conversation), `reset` and `stats` read and mutate them.

The embedding models a single group's keyspace as a `GameStore` and each
handler as a pure function taking the store plus the outcomes of the
external transport calls (channel post, admin check) as parameters.
Strings are handled through their character lists so that all definitions
reduce inside the kernel; Python truthiness of strings (empty/None are
falsy) is modelled explicitly.  Character classes are modelled over ASCII
(the captions and handles of the game are ASCII).
-/

namespace NumberGame

/-- Python truthiness of a `str`: the empty string is falsy. -/
def pyTruthyStr (s : String) : Bool := !s.data.isEmpty

/-- Python truthiness of an `Optional[str]`: `None` and `""` are falsy. -/
def pyTruthyOptStr (s : Option String) : Bool :=
  match s with
  | none => false
  | some t => pyTruthyStr t

/-- Python `s.startswith(c)` for a one-character argument. -/
def pyStartsWithChar (s : String) (c : Char) : Bool := s.data.head? == c

/-- Python `s.strip()`: drop whitespace on both ends. -/
def pyStrip (s : String) : String :=
  String.mk (((s.data.dropWhile Char.isWhitespace).reverse.dropWhile
    Char.isWhitespace).reverse)

/-- Decimal digits accumulated into a number, as Python `int` does on a
digit string. -/
def digitsToNat (ds : List Char) : Nat :=
  ds.foldl (fun a c => a * 10 + (c.toNat - 48)) 0

/-- Auxiliary fuel-based decimal printer (digits accumulated on the
right), mirroring the decimal rendering Python `str(int)` performs. -/
def natToCharsCore : Nat → Nat → List Char → List Char
  | 0, _, acc => acc
  | fuel + 1, n, acc =>
    if n / 10 = 0 then Nat.digitChar (n % 10) :: acc
    else natToCharsCore fuel (n / 10) (Nat.digitChar (n % 10) :: acc)

/-- Python `str(n)` for a non-negative integer: its decimal digits. -/
def pyStrNat (n : Nat) : String := String.mk (natToCharsCore (n + 1) n [])

/-- Extraction of the claimed number from a caption:
`num_p = re.compile(r"(\d+)!")` applied with `num_p.match(caption.strip())`
(`re.match` anchors at the start).  The pattern matches exactly when the
stripped caption starts with a non-empty digit run whose next character is
`!`; the captured group is that digit run. -/
def parseCaption (cap : String) : Option Nat :=
  let t := (pyStrip cap).data
  let ds := t.takeWhile Char.isDigit
  if ds.isEmpty then none
  else if (t.dropWhile Char.isDigit).head? = some '!' then some (digitsToNat ds)
  else none

/-- The Redis keyspace of one group: `current_number`, `channel_id`, the
`message_history` hash (field string → link) and the per-user
`user_submissions` sets.  `none`/absence of an entry models an unset key. -/
structure GameStore where
  current_number : Option Nat
  channel_id : Option String
  message_history : List (String × String)
  user_submissions : List (Nat × List Nat)
deriving DecidableEq

/-- A group with no keys set. -/
def emptyStore : GameStore := ⟨none, none, [], []⟩

/-- Redis `HGET`: first binding of the field in the hash. -/
def hget (h : List (String × String)) (field : String) : Option String :=
  (h.find? (fun p => p.1 = field)).map Prod.snd

/-- Redis `HSET`: overwrite the field if present, append it otherwise. -/
def hset (h : List (String × String)) (field v : String) :
    List (String × String) :=
  if h.any (fun p => p.1 = field) then
    h.map (fun p => if p.1 = field then (field, v) else p)
  else h ++ [(field, v)]

/-- Redis `SADD` on a set of numbers. -/
def sadd (l : List Nat) (n : Nat) : List Nat := if n ∈ l then l else l ++ [n]

/-- `GameState.get_current_number`. -/
def get_current_number (s : GameStore) : Option Nat := s.current_number

/-- `GameState.set_current_number`. -/
def set_current_number (s : GameStore) (n : Nat) : GameStore :=
  { s with current_number := some n }

/-- `GameState.get_channel_id`. -/
def get_channel_id (s : GameStore) : Option String := s.channel_id

/-- `GameState.set_channel_id`. -/
def set_channel_id (s : GameStore) (c : String) : GameStore :=
  { s with channel_id := some c }

/-- `GameState.get_submission_link`: `hget` on the history hash; the
integer field is rendered in decimal by the Redis client. -/
def get_submission_link (s : GameStore) (number : Nat) : Option String :=
  hget s.message_history (pyStrNat number)

/-- `GameState.set_submission_link`. -/
def set_submission_link (s : GameStore) (number : Nat) (link : String) :
    GameStore :=
  { s with message_history := hset s.message_history (pyStrNat number) link }

/-- `GameState.add_user_submission`: `SADD` on the user's set. -/
def add_user_submission (s : GameStore) (user number : Nat) : GameStore :=
  { s with user_submissions :=
      if s.user_submissions.any (fun p => p.1 = user) then
        s.user_submissions.map (fun p =>
          if p.1 = user then (p.1, sadd p.2 number) else p)
      else s.user_submissions ++ [(user, [number])] }

/-- `GameState.delete_for_group`: every `group:{id}:*` key is deleted,
which is precisely the whole per-group store. -/
def delete_for_group (_ : GameStore) : GameStore := emptyStore

/-- Result of one `submit` call, as observable from the handler. -/
inductive SubmitOutcome where
  /-- No `channel_id` key: "The game has not been initialized". -/
  | notInitialized
  /-- Falsy caption: the handler only logs and returns. -/
  | noCaption
  /-- Unparsable caption: `number` is `None` and the duplicate lookup
  `hget(history, None)` raises `redis.exceptions.DataError`. -/
  | storeDataError
  /-- A link already exists for the number: "has already been submitted". -/
  | alreadySubmitted (number : Nat) (link : String)
  /-- `current_number` key missing while a comparison with
  `current_number + 1` is evaluated: Python `TypeError`. -/
  | typeError
  /-- Accepted: the photo was posted and the state advanced. -/
  | accepted (number : Nat) (link : String)
  /-- "Wrong number! Expected {current+1}, not {number}." -/
  | wrongNumber (expected got : Nat)
  /-- `send_photo` raised after the user-set record was written. -/
  | postingError
deriving DecidableEq

/-- The checks of `submit` performed after a number was parsed from the
caption: the duplicate-link check, then the sequence check
`if number and number == current_number + 1`, then the accept path
(a) `add_user_submission`, (b) `send_photo` (modelled by `post`, `none`
meaning the call raised), (c) `set_submission_link`,
(d) `set_current_number`. -/
def submitChecked (s : GameStore) (user number : Nat) (post : Option String) :
    SubmitOutcome × GameStore :=
  match get_submission_link s number with
  | some link0 => (SubmitOutcome.alreadySubmitted number link0, s)
  | none =>
    match s.current_number with
    | none => (SubmitOutcome.typeError, s)
    | some current =>
      if number ≠ 0 ∧ number = current + 1 then
        match post with
        | none => (SubmitOutcome.postingError, add_user_submission s user number)
        | some link =>
          (SubmitOutcome.accepted number link,
            set_current_number
              (set_submission_link (add_user_submission s user number) number link)
              number)
      else (SubmitOutcome.wrongNumber (current + 1) number, s)

/-- The `submit` handler.  The order of checks follows the code: the
initialization check on `channel_id` first, then the caption truthiness
check, then the regex parse, then `submitChecked`. -/
def pySubmit (s : GameStore) (user : Nat) (caption : Option String)
    (post : Option String) : SubmitOutcome × GameStore :=
  if pyTruthyOptStr s.channel_id then
    match caption with
    | none => (SubmitOutcome.noCaption, s)
    | some cap =>
      if cap.data.isEmpty then (SubmitOutcome.noCaption, s)
      else
        match parseCaption cap with
        | none => (SubmitOutcome.storeDataError, s)
        | some number => submitChecked s user number post
  else (SubmitOutcome.notInitialized, s)

/-- Result of the `public_channel` initialization step. -/
inductive InitOutcome where
  /-- The raised exception was caught: "Could not start the bot". -/
  | initFailed
  /-- "The channel ... has been associated with this group." -/
  | initOk
deriving DecidableEq

/-- The `public_channel` handler (the `complete_init` step): the literal
check `if not channel_id and not channel_id.startswith("@")` raises, then
the bot-posting probe (`is_bot_admin_in_channel`, modelled by `probeOk`)
must succeed, and on success `set_channel_id` and `set_current_number 1`
run. -/
def pyPublicChannel (s : GameStore) (text : String) (probeOk : Bool) :
    InitOutcome × GameStore :=
  if !pyTruthyStr text && !pyStartsWithChar text '@' then
    (InitOutcome.initFailed, s)
  else if !probeOk then (InitOutcome.initFailed, s)
  else (InitOutcome.initOk, set_current_number (set_channel_id s text) 1)

/-- `check_admin`: the requesting member's chat status must be
`administrator` or `creator`; a failed status lookup (`none`) counts as
not an admin. -/
def pyCheckAdmin (status : Option String) : Bool :=
  match status with
  | none => false
  | some st => st == "administrator" || st == "creator"

/-- Result of the `reset` handler. -/
inductive ResetOutcome where
  /-- "You must be an admin to reset the game." -/
  | permissionDenied
  /-- "Game has been reset for this group." -/
  | resetOk
deriving DecidableEq

/-- The `reset` handler: admin check, then `delete_for_group`. -/
def pyReset (s : GameStore) (status : Option String) :
    ResetOutcome × GameStore :=
  if pyCheckAdmin status then (ResetOutcome.resetOk, delete_for_group s)
  else (ResetOutcome.permissionDenied, s)

/-- The latest-number field of one user's `stats` line:
`max(user_numbers) if user_numbers else "N/A"`, rendered as the hash field
it is then looked up under. -/
def statsLatest (nums : List Nat) : String :=
  if nums.isEmpty then "N/A" else pyStrNat (nums.foldl max 0)

/-- One user's entry in `stats`: the latest-number field and the link
found for it in the message history. -/
def statsEntry (s : GameStore) (nums : List Nat) : String × Option String :=
  (statsLatest nums, hget s.message_history (statsLatest nums))

/-- Well-formedness of the message-history hash: every field was written
by `set_submission_link`, hence is the decimal rendering of a number. -/
def HistWF (h : List (String × String)) : Prop :=
  ∀ p ∈ h, ∃ n : Nat, p.1 = pyStrNat n

/-- The store reached from an empty group by a successful initialization
with channel `@c`. -/
def initStore : GameStore := ⟨some 1, some "@c", [], []⟩

/-- The store reached from `initStore` by the accepted submission of the
number 2 by user 42, with posted link `L`. -/
def playedStore : GameStore := ⟨some 2, some "@c", [("2", "L")], [(42, [2])]⟩

/-- The caption shape described by the extraction rule: the stripped
caption decomposes as a non-empty run of digits followed immediately by
the character bang and an arbitrary remainder. -/
def specCaptionMatch (cap : String) : Prop :=
  ∃ ds rest, (pyStrip cap).data = ds ++ '!' :: rest ∧ ds ≠ [] ∧
    ∀ c ∈ ds, c.isDigit = true

/-! ### Helper lemmas -/

theorem add_user_current (s : GameStore) (user number : Nat) :
    (add_user_submission s user number).current_number = s.current_number := rfl

theorem add_user_history (s : GameStore) (user number : Nat) :
    (add_user_submission s user number).message_history = s.message_history := rfl

theorem add_user_channel (s : GameStore) (user number : Nat) :
    (add_user_submission s user number).channel_id = s.channel_id := rfl

theorem parseCaption_empty_data {cap : String} (h : cap.data = []) :
    parseCaption cap = none := by
  simp [parseCaption, pyStrip, h]

/-- Reduction of `pySubmit` past the initialization and caption checks
once a number was parsed. -/
theorem pySubmit_parsed (s : GameStore) (user : Nat) (cap : String)
    (post : Option String) (n : Nat)
    (hch : pyTruthyOptStr s.channel_id = true)
    (hparse : parseCaption cap = some n) :
    pySubmit s user (some cap) post = submitChecked s user n post := by
  have hne : cap.data.isEmpty = false := by
    cases hd : cap.data with
    | nil => rw [parseCaption_empty_data hd] at hparse; cases hparse
    | cons a l => simp [hd]
  simp [pySubmit, hch, hne, hparse]

/-! ### C1: strict-successor rule -/

/-- C1, counterexample.  In the reachable state `playedStore` (an Active
group with `current_number = 2`, reached by init followed by an accepted
submission of 2), a second submission of the parsed number 2 — a value
different from `current_number + 1` — fails with `AlreadySubmitted`, not
with `WrongNumber(expected=3, got=2)` as the claim states. -/
theorem submit_wrongnumber_cex :
    (pySubmit initStore 42 (some "2!") (some "L")).2 = playedStore
    ∧ pyTruthyOptStr playedStore.channel_id = true
    ∧ parseCaption "2!" = some 2
    ∧ playedStore.current_number = some 2
    ∧ (2 : Nat) ≠ 2 + 1
    ∧ (pySubmit playedStore 7 (some "2!") (some "L2")).1
        = SubmitOutcome.alreadySubmitted 2 "L"
    ∧ (pySubmit playedStore 7 (some "2!") (some "L2")).1
        ≠ SubmitOutcome.wrongNumber 3 2 := by decide

/-- C1, amended.  For an Active group with `current_number = c` and a
submit call whose caption parses to `n`, provided no submission link is
recorded for `n` and the channel post succeeds: the submission is
accepted iff `n = c + 1`, and any other parsed value fails with
`WrongNumber(expected = c + 1, got = n)` leaving the store unchanged. -/
theorem submit_strict_successor (s : GameStore) (user c n : Nat)
    (cap link : String)
    (hch : pyTruthyOptStr s.channel_id = true)
    (hparse : parseCaption cap = some n)
    (hcur : s.current_number = some c)
    (hnodup : get_submission_link s n = none) :
    ((pySubmit s user (some cap) (some link)).1
        = SubmitOutcome.accepted n link ↔ n = c + 1)
    ∧ (n ≠ c + 1 →
        pySubmit s user (some cap) (some link)
          = (SubmitOutcome.wrongNumber (c + 1) n, s)) := by
  rw [pySubmit_parsed s user cap (some link) n hch hparse]
  unfold submitChecked
  rw [hnodup, hcur]
  by_cases hn : n = c + 1
  · subst hn
    simp
  · simp [hn]

/-- C1, witness for `submit_strict_successor` at `initStore`: `2` is
accepted, `3` is rejected with `WrongNumber(expected=2, got=3)`. -/
theorem submit_strict_successor_witness :
    ((pySubmit initStore 42 (some "2!") (some "L")).1
        = SubmitOutcome.accepted 2 "L" ↔ (2 : Nat) = 1 + 1)
    ∧ ((3 : Nat) ≠ 1 + 1 →
        pySubmit initStore 42 (some "3!") (some "L")
          = (SubmitOutcome.wrongNumber 2 3, initStore)) :=
  ⟨(submit_strict_successor initStore 42 1 2 "2!" "L" (by decide) (by decide)
      (by decide) (by decide)).1,
   (submit_strict_successor initStore 42 1 3 "3!" "L" (by decide) (by decide)
      (by decide) (by decide)).2⟩

/-! ### C2: initial value of the counter -/

/-- C2, counterexample.  A successful initialization of a fresh group
sets `current_number` to 1, not 0, and the submission of the number 1
immediately afterwards fails with `WrongNumber(expected=2, got=1)`
instead of succeeding as the claim states. -/
theorem init_counter_cex :
    (pyPublicChannel emptyStore "@chan" true).2.current_number = some 1
    ∧ (pyPublicChannel emptyStore "@chan" true).2.current_number ≠ some 0
    ∧ (pySubmit (pyPublicChannel emptyStore "@chan" true).2 42
        (some "1!") (some "lnk")).1 = SubmitOutcome.wrongNumber 2 1 := by decide

/-- C2, amended.  Successful initialization (non-empty handle, passing
probe) sets `channel_id` to the supplied handle and `current_number` to
1, so for a freshly initialized group the number 1 is rejected with
`WrongNumber(expected=2, got=1)` and the first acceptable submission is
the number 2. -/
theorem init_sets_counter_one (s : GameStore) (text : String)
    (hne : pyTruthyStr text = true) (hhist : s.message_history = []) :
    (pyPublicChannel s text true).1 = InitOutcome.initOk
    ∧ (pyPublicChannel s text true).2.channel_id = some text
    ∧ (pyPublicChannel s text true).2.current_number = some 1
    ∧ (pySubmit (pyPublicChannel s text true).2 42 (some "1!")
        (some "lnk")).1 = SubmitOutcome.wrongNumber 2 1
    ∧ (pySubmit (pyPublicChannel s text true).2 42 (some "2!")
        (some "lnk")).1 = SubmitOutcome.accepted 2 "lnk" := by
  have h1 : pyPublicChannel s text true
      = (InitOutcome.initOk, set_current_number (set_channel_id s text) 1) := by
    simp [pyPublicChannel, hne]
  rw [h1]
  set s' := set_current_number (set_channel_id s text) 1 with hs'
  have hch : pyTruthyOptStr s'.channel_id = true := by
    simp [hs', set_current_number, set_channel_id, pyTruthyOptStr, hne]
  have hcur : s'.current_number = some 1 := rfl
  have hnodup : ∀ m : Nat, get_submission_link s' m = none := by
    intro m
    simp [hs', get_submission_link, set_current_number, set_channel_id,
      hhist, hget]
  refine ⟨rfl, rfl, rfl, ?_, ?_⟩
  · rw [pySubmit_parsed s' 42 "1!" (some "lnk") 1 hch (by decide)]
    unfold submitChecked
    rw [hnodup 1, hcur]
    simp
  · rw [pySubmit_parsed s' 42 "2!" (some "lnk") 2 hch (by decide)]
    unfold submitChecked
    rw [hnodup 2, hcur]
    simp

/-- C2, witness for `init_sets_counter_one` at the empty store and
handle `@chan`. -/
theorem init_sets_counter_one_witness :
    (pyPublicChannel emptyStore "@chan" true).1 = InitOutcome.initOk
    ∧ (pyPublicChannel emptyStore "@chan" true).2.channel_id = some "@chan"
    ∧ (pyPublicChannel emptyStore "@chan" true).2.current_number = some 1
    ∧ (pySubmit (pyPublicChannel emptyStore "@chan" true).2 42 (some "1!")
        (some "lnk")).1 = SubmitOutcome.wrongNumber 2 1
    ∧ (pySubmit (pyPublicChannel emptyStore "@chan" true).2 42 (some "2!")
        (some "lnk")).1 = SubmitOutcome.accepted 2 "lnk" :=
  init_sets_counter_one emptyStore "@chan" (by decide) rfl

/-! ### C3: duplicate check precedes the sequence check -/

/-- C3.  For an Active group, if a submission link is already recorded
for the parsed number then `submit` fails with `AlreadySubmitted`
carrying the existing link and changes no state; the second conjunct
shows the outcome is the same whatever `current_number` holds (absent or
any value), i.e. the duplicate check is decided before the sequence
check is reached. -/
theorem submit_duplicate_first (s : GameStore) (user n : Nat)
    (cap link : String) (post : Option String)
    (hch : pyTruthyOptStr s.channel_id = true)
    (hparse : parseCaption cap = some n)
    (hdup : get_submission_link s n = some link) :
    pySubmit s user (some cap) post = (SubmitOutcome.alreadySubmitted n link, s)
    ∧ ∀ c' : Option Nat,
        pySubmit { s with current_number := c' } user (some cap) post
          = (SubmitOutcome.alreadySubmitted n link,
             { s with current_number := c' }) := by
  constructor
  · rw [pySubmit_parsed s user cap post n hch hparse]
    unfold submitChecked
    rw [hdup]
  · intro c'
    have hch' : pyTruthyOptStr ({ s with current_number := c' } : GameStore).channel_id = true := hch
    have hdup' : get_submission_link { s with current_number := c' } n = some link := hdup
    rw [pySubmit_parsed _ user cap post n hch' hparse]
    unfold submitChecked
    rw [hdup']

/-- C3, witness for `submit_duplicate_first` at `playedStore`, where a
link for the number 2 is recorded. -/
theorem submit_duplicate_first_witness :
    pySubmit playedStore 7 (some "2!") (some "L2")
      = (SubmitOutcome.alreadySubmitted 2 "L", playedStore)
    ∧ ∀ c' : Option Nat,
        pySubmit { playedStore with current_number := c' } 7 (some "2!")
          (some "L2")
          = (SubmitOutcome.alreadySubmitted 2 "L",
             { playedStore with current_number := c' }) :=
  submit_duplicate_first playedStore 7 2 "2!" "L" (some "L2") (by decide)
    (by decide) (by decide)

/-! ### C4: failed channel post after step (a) -/

/-- C4, counterexample.  When the channel post fails after the user-set
record was written (submission of 2 on the freshly initialized
`initStore` with a failing post), the counter is not advanced and no
link is stored, but the state is NOT rolled back to its pre-attempt
value: the user-set record of step (a) survives. -/
theorem submit_postfail_cex :
    (pyPublicChannel emptyStore "@c" true).2 = initStore
    ∧ (pySubmit initStore 42 (some "2!") none).1 = SubmitOutcome.postingError
    ∧ (pySubmit initStore 42 (some "2!") none).2.current_number = some 1
    ∧ (pySubmit initStore 42 (some "2!") none).2.message_history = []
    ∧ (pySubmit initStore 42 (some "2!") none).2.user_submissions = [(42, [2])]
    ∧ (pySubmit initStore 42 (some "2!") none).2 ≠ initStore := by decide

/-- C4, amended.  If the external post step fails after step (a) on an
accepted-sequence submission, the operation does not advance
`current_number` and stores no link, and an error surfaces (the
exception propagates out of the handler); but the persisted state is not
rolled back: the resulting store is exactly the pre-attempt store with
the step-(a) user-set record added. -/
theorem submit_postfail_keeps_record (s : GameStore) (user c n : Nat)
    (cap : String)
    (hch : pyTruthyOptStr s.channel_id = true)
    (hparse : parseCaption cap = some n)
    (hcur : s.current_number = some c)
    (hnodup : get_submission_link s n = none)
    (hn : n = c + 1) :
    pySubmit s user (some cap) none
      = (SubmitOutcome.postingError, add_user_submission s user n)
    ∧ (pySubmit s user (some cap) none).2.current_number = s.current_number
    ∧ (pySubmit s user (some cap) none).2.message_history
        = s.message_history := by
  have h1 : pySubmit s user (some cap) none
      = (SubmitOutcome.postingError, add_user_submission s user n) := by
    rw [pySubmit_parsed s user cap none n hch hparse]
    unfold submitChecked
    rw [hnodup, hcur]
    subst hn
    simp
  exact ⟨h1, by rw [h1]; exact add_user_current s user n,
    by rw [h1]; exact add_user_history s user n⟩

/-- C4, witness for `submit_postfail_keeps_record` at `initStore`. -/
theorem submit_postfail_keeps_record_witness :
    pySubmit initStore 42 (some "2!") none
      = (SubmitOutcome.postingError, add_user_submission initStore 42 2)
    ∧ (pySubmit initStore 42 (some "2!") none).2.current_number
        = initStore.current_number
    ∧ (pySubmit initStore 42 (some "2!") none).2.message_history
        = initStore.message_history :=
  submit_postfail_keeps_record initStore 42 1 2 "2!" (by decide) (by decide)
    (by decide) (by decide) (by decide)

/-! ### C5: order of the format check -/

/-- C5, counterexample.  The initialization check precedes any caption
handling: for an uninitialized group, a submit call with the unparsable
caption `hello` fails with `NotInitialized` — the format is never
examined — and for an initialized group the same caption produces a
store data error (the duplicate lookup runs with an absent number), not
an `InvalidFormat` failure. -/
theorem submit_format_order_cex :
    parseCaption "hello" = none
    ∧ pySubmit emptyStore 1 (some "hello") none
        = (SubmitOutcome.notInitialized, emptyStore)
    ∧ pySubmit initStore 1 (some "hello") none
        = (SubmitOutcome.storeDataError, initStore) := by decide

/-- C5, amended.  The `NotInitialized` check is performed first: any
submit call on a group without channel fails with `NotInitialized`
regardless of the caption.  Once initialized, an absent or empty caption
is silently dropped, and a non-empty caption that yields no parsable
number makes the duplicate lookup run with an absent number, raising a
store data error; no `InvalidFormat` error exists.  State is unchanged
in all these cases. -/
theorem submit_order_and_format (s : GameStore) (user : Nat)
    (post : Option String) :
    (∀ caption, pyTruthyOptStr s.channel_id = false →
        pySubmit s user caption post = (SubmitOutcome.notInitialized, s))
    ∧ (pyTruthyOptStr s.channel_id = true →
        pySubmit s user none post = (SubmitOutcome.noCaption, s))
    ∧ (∀ cap, pyTruthyOptStr s.channel_id = true → cap.data.isEmpty = true →
        pySubmit s user (some cap) post = (SubmitOutcome.noCaption, s))
    ∧ (∀ cap, pyTruthyOptStr s.channel_id = true → cap.data.isEmpty = false →
        parseCaption cap = none →
        pySubmit s user (some cap) post
          = (SubmitOutcome.storeDataError, s)) := by
  refine ⟨?_, ?_, ?_, ?_⟩
  · intro caption hch
    simp [pySubmit, hch]
  · intro hch
    simp [pySubmit, hch]
  · intro cap hch hemp
    simp [pySubmit, hch, hemp]
  · intro cap hch hemp hparse
    simp [pySubmit, hch, hemp, hparse]

/-- C5, witness for `submit_order_and_format` at the empty store and at
`initStore` with the caption `hello`. -/
theorem submit_order_and_format_witness :
    pySubmit emptyStore 1 (some "hello") none
      = (SubmitOutcome.notInitialized, emptyStore)
    ∧ pySubmit initStore 1 (some "hello") none
      = (SubmitOutcome.storeDataError, initStore) :=
  ⟨(submit_order_and_format emptyStore 1 none).1 (some "hello") (by decide),
   (submit_order_and_format initStore 1 none).2.2.2 "hello" (by decide)
     (by decide) (by decide)⟩

/-! ### C6: the channel-handle validation -/

/-- C6, theorem at the failing input.  The handler's condition
`if not channel_id and not channel_id.startswith("@")` uses a
conjunction where its own exception message ("The channel name is empty
or does not start with @") and the spec require a disjunction, so the
non-empty handle `somechannel` — which does not start with the channel
marker — passes the syntactic validation, and with a passing probe the
initialization succeeds and persists that handle.  The empty handle is
rejected with no state change, and a failing probe also aborts with no
state change. -/
theorem init_marker_check_bug :
    pyStartsWithChar "somechannel" '@' = false
    ∧ pyPublicChannel emptyStore "somechannel" true
        = (InitOutcome.initOk,
           ⟨some 1, some "somechannel", [], []⟩)
    ∧ pyPublicChannel emptyStore "" true = (InitOutcome.initFailed, emptyStore)
    ∧ pyPublicChannel emptyStore "somechannel" false
        = (InitOutcome.initFailed, emptyStore) := by decide

/-! ### C7: monotonicity of the counter -/

/-- C7.  A `submit` call either leaves `current_number` exactly as it
was (and is not an accepted submission), or it is an accepted submission
and advances `current_number` from its previous value `c` to `c + 1`;
in particular `current_number` never decreases and only a successful
submission advances it. -/
theorem submit_monotone (s : GameStore) (user : Nat)
    (caption post : Option String) :
    ((pySubmit s user caption post).2.current_number = s.current_number
      ∧ ∀ n link,
          (pySubmit s user caption post).1 ≠ SubmitOutcome.accepted n link)
    ∨ (∃ c link, s.current_number = some c
        ∧ (pySubmit s user caption post).1
            = SubmitOutcome.accepted (c + 1) link
        ∧ (pySubmit s user caption post).2.current_number = some (c + 1)) := by
  by_cases hch : pyTruthyOptStr s.channel_id = true
  case neg =>
    rw [Bool.not_eq_true] at hch
    left
    constructor
    · simp [pySubmit, hch]
    · intro n link
      simp [pySubmit, hch]
  case pos =>
    cases caption with
    | none =>
      left
      exact ⟨by simp [pySubmit, hch], fun n link => by simp [pySubmit, hch]⟩
    | some cap =>
      by_cases hemp : cap.data.isEmpty = true
      · left
        exact ⟨by simp [pySubmit, hch, hemp],
          fun n link => by simp [pySubmit, hch, hemp]⟩
      · rw [Bool.not_eq_true] at hemp
        cases hp : parseCaption cap with
        | none =>
          left
          exact ⟨by simp [pySubmit, hch, hemp, hp],
            fun n link => by simp [pySubmit, hch, hemp, hp]⟩
        | some m =>
          rw [pySubmit_parsed s user cap post m hch hp]
          cases hl : get_submission_link s m with
          | some link0 =>
            left
            exact ⟨by simp [submitChecked, hl],
              fun n link => by simp [submitChecked, hl]⟩
          | none =>
            cases hc : s.current_number with
            | none =>
              left
              exact ⟨by simp [submitChecked, hl, hc],
                fun n link => by simp [submitChecked, hl, hc]⟩
            | some current =>
              by_cases hseq : m ≠ 0 ∧ m = current + 1
              · obtain ⟨hm0, hmeq⟩ := hseq
                subst hmeq
                cases post with
                | none =>
                  left
                  constructor
                  · simp [submitChecked, hl, hc, add_user_current]
                  · intro n link
                    simp [submitChecked, hl, hc]
                | some link =>
                  right
                  refine ⟨current, link, rfl, ?_, ?_⟩
                  · simp [submitChecked, hl, hc]
                  · simp [submitChecked, hl, hc, set_current_number]
              · left
                exact ⟨by simp [submitChecked, hl, hc, hseq],
                  fun n link => by simp [submitChecked, hl, hc, hseq]⟩

/-- C7, witness: instantiation of `submit_monotone` at `initStore` with
the accepted submission of 2. -/
theorem submit_monotone_witness :
    ((pySubmit initStore 42 (some "2!") (some "L")).2.current_number
        = initStore.current_number
      ∧ ∀ n link, (pySubmit initStore 42 (some "2!") (some "L")).1
          ≠ SubmitOutcome.accepted n link)
    ∨ (∃ c link, initStore.current_number = some c
        ∧ (pySubmit initStore 42 (some "2!") (some "L")).1
            = SubmitOutcome.accepted (c + 1) link
        ∧ (pySubmit initStore 42 (some "2!") (some "L")).2.current_number
            = some (c + 1)) :=
  submit_monotone initStore 42 (some "2!") (some "L")

/-! ### C8: reset requires admin rights -/

/-- C8.  A reset requested by a user whose chat status is not
administrator or creator fails with `PermissionDenied` and leaves the
whole store (counter, channel, histories) unchanged; a reset by an admin
deletes every key of the group, so the subsequent reads of
`current_number` and `channel_id` return absent. -/
theorem reset_admin_gate (s : GameStore) (status : Option String) :
    (pyCheckAdmin status = false →
        pyReset s status = (ResetOutcome.permissionDenied, s))
    ∧ (pyCheckAdmin status = true →
        (pyReset s status).1 = ResetOutcome.resetOk
        ∧ (pyReset s status).2 = emptyStore
        ∧ get_current_number (pyReset s status).2 = none
        ∧ get_channel_id (pyReset s status).2 = none) := by
  constructor
  · intro h
    simp [pyReset, h]
  · intro h
    refine ⟨by simp [pyReset, h], by simp [pyReset, h, delete_for_group], ?_, ?_⟩
    · simp [pyReset, h, delete_for_group, get_current_number, emptyStore]
    · simp [pyReset, h, delete_for_group, get_channel_id, emptyStore]

/-- C8, witness for `reset_admin_gate` at `playedStore`: a plain member
is denied with no change, an administrator wipes the group. -/
theorem reset_admin_gate_witness :
    pyReset playedStore (some "member")
      = (ResetOutcome.permissionDenied, playedStore)
    ∧ (pyReset playedStore (some "administrator")).1 = ResetOutcome.resetOk
    ∧ (pyReset playedStore (some "administrator")).2 = emptyStore
    ∧ get_current_number (pyReset playedStore (some "administrator")).2 = none
    ∧ get_channel_id (pyReset playedStore (some "administrator")).2 = none :=
  ⟨(reset_admin_gate playedStore (some "member")).1 (by decide),
   (reset_admin_gate playedStore (some "administrator")).2 (by decide)⟩

/-! ### C9: the caption pattern is anchored -/

theorem takeWhile_all_append (p : Char → Bool) :
    ∀ ds l : List Char, (∀ c ∈ ds, p c = true) →
      (ds ++ l).takeWhile p = ds ++ l.takeWhile p := by
  intro ds
  induction ds with
  | nil => intro l _; rfl
  | cons d ds ih =>
    intro l h
    have hd : p d = true := h d (List.mem_cons_self d ds)
    simp only [List.cons_append, List.takeWhile_cons, hd, if_true]
    rw [ih l (fun c hc => h c (List.mem_cons_of_mem d hc))]

theorem dropWhile_all_append (p : Char → Bool) :
    ∀ ds l : List Char, (∀ c ∈ ds, p c = true) →
      (ds ++ l).dropWhile p = l.dropWhile p := by
  intro ds
  induction ds with
  | nil => intro l _; rfl
  | cons d ds ih =>
    intro l h
    have hd : p d = true := h d (List.mem_cons_self d ds)
    simp only [List.cons_append, List.dropWhile_cons, hd, if_true]
    exact ih l (fun c hc => h c (List.mem_cons_of_mem d hc))

/-- C9.  A number is extracted from a caption exactly when the stripped
caption begins with a non-empty digit run immediately followed by the
bang character (the match is anchored at the start); and whenever no
number is extracted, the submit call can never end in acceptance. -/
theorem parse_anchored (cap : String) :
    ((parseCaption cap).isSome = true ↔ specCaptionMatch cap)
    ∧ (parseCaption cap = none → ∀ s user post n link,
        (pySubmit s user (some cap) post).1 ≠ SubmitOutcome.accepted n link) := by
  constructor
  · constructor
    · intro h
      simp only [parseCaption] at h
      split at h
      · cases h
      · next hds =>
        split at h
        · next hbang =>
          cases hdw : (pyStrip cap).data.dropWhile Char.isDigit with
          | nil => rw [hdw] at hbang; cases hbang
          | cons a l' =>
            rw [hdw] at hbang
            have ha : a = '!' := by simpa using hbang
            subst ha
            refine ⟨(pyStrip cap).data.takeWhile Char.isDigit, l', ?_, ?_, ?_⟩
            · conv_lhs => rw [← List.takeWhile_append_dropWhile
                (p := Char.isDigit) (l := (pyStrip cap).data)]
              rw [hdw]
            · intro hnil
              exact hds (by rw [hnil]; rfl)
            · intro c hc
              exact List.mem_takeWhile_imp hc
        · cases h
    · rintro ⟨ds, rest, hdecomp, hne, hdig⟩
      have hnb : Char.isDigit '!' = false := by decide
      simp only [parseCaption, hdecomp,
        takeWhile_all_append Char.isDigit ds ('!' :: rest) hdig,
        dropWhile_all_append Char.isDigit ds ('!' :: rest) hdig,
        List.takeWhile_cons, List.dropWhile_cons, hnb]
      cases ds with
      | nil => exact absurd rfl hne
      | cons d ds' => simp
  · intro hnone s user post n link
    by_cases hch : pyTruthyOptStr s.channel_id = true
    · by_cases hemp : cap.data.isEmpty = true
      · simp [pySubmit, hch, hemp]
      · rw [Bool.not_eq_true] at hemp
        simp [pySubmit, hch, hemp, hnone]
    · rw [Bool.not_eq_true] at hch
      simp [pySubmit, hch]

/-- C9, witness: the caption `found 42!` carries its number away from
the start, so no number is parsed and the submission is not accepted
even on an Active group with `current_number = 42`. -/
theorem parse_anchored_witness :
    (pySubmit ⟨some 42, some "@c", [], []⟩ 5 (some "found 42!")
      (some "L")).1 ≠ SubmitOutcome.accepted 43 "L" :=
  (parse_anchored "found 42!").2 (by decide) ⟨some 42, some "@c", [], []⟩ 5
    (some "L") 43 "L"

/-! ### C10: stats on a user with an empty submission set -/

theorem digitChar_digit (d : Nat) (h : d < 10) :
    (Nat.digitChar d).isDigit = true := by
  interval_cases d <;> decide

theorem natToCharsCore_digits (fuel : Nat) :
    ∀ (n : Nat) (acc : List Char), (∀ c ∈ acc, c.isDigit = true) →
      ∀ c ∈ natToCharsCore fuel n acc, c.isDigit = true := by
  induction fuel with
  | zero => intro n acc h c hc; exact h c hc
  | succ fuel ih =>
    intro n acc h c hc
    rw [natToCharsCore] at hc
    have hlt : n % 10 < 10 := Nat.mod_lt _ (by omega)
    split at hc
    · rcases List.mem_cons.mp hc with hc | hc
      · subst hc; exact digitChar_digit _ hlt
      · exact h c hc
    · refine ih _ _ ?_ c hc
      intro c' hc'
      rcases List.mem_cons.mp hc' with h' | h'
      · subst h'; exact digitChar_digit _ hlt
      · exact h c' h'

theorem pyStrNat_ne_na (n : Nat) : pyStrNat n ≠ "N/A" := by
  intro h
  have hmem : 'N' ∈ (pyStrNat n).data := by rw [h]; decide
  have hdig := natToCharsCore_digits (n + 1) n []
    (by intro c hc; cases hc) 'N' hmem
  exact absurd hdig (by decide)

theorem HistWF_hset {h : List (String × String)} (hwf : HistWF h)
    (n : Nat) (v : String) : HistWF (hset h (pyStrNat n) v) := by
  intro p hp
  unfold hset at hp
  split at hp
  · obtain ⟨q, hq, hqe⟩ := List.mem_map.mp hp
    by_cases hqk : q.1 = pyStrNat n
    · rw [if_pos hqk] at hqe
      exact ⟨n, by rw [← hqe]⟩
    · rw [if_neg hqk] at hqe
      exact hqe ▸ hwf q hq
  · rcases List.mem_append.mp hp with hp' | hp'
    · exact hwf p hp'
    · have : p = (pyStrNat n, v) := by simpa using hp'
      exact ⟨n, by rw [this]⟩

/-- Every branch of `submit` leaves the message history as it was or
extends it through `set_submission_link`, so histories only ever hold
numeric fields. -/
theorem submit_history_shape (s : GameStore) (user : Nat)
    (caption post : Option String) :
    (pySubmit s user caption post).2.message_history = s.message_history
    ∨ ∃ n link, (pySubmit s user caption post).2.message_history
        = hset s.message_history (pyStrNat n) link := by
  by_cases hch : pyTruthyOptStr s.channel_id = true
  case neg =>
    rw [Bool.not_eq_true] at hch
    left; simp [pySubmit, hch]
  case pos =>
    cases caption with
    | none => left; simp [pySubmit, hch]
    | some cap =>
      by_cases hemp : cap.data.isEmpty = true
      · left; simp [pySubmit, hch, hemp]
      · rw [Bool.not_eq_true] at hemp
        cases hp : parseCaption cap with
        | none => left; simp [pySubmit, hch, hemp, hp]
        | some m =>
          rw [pySubmit_parsed s user cap post m hch hp]
          cases hl : get_submission_link s m with
          | some l0 => left; simp [submitChecked, hl]
          | none =>
            cases hc : s.current_number with
            | none => left; simp [submitChecked, hl, hc]
            | some cur =>
              by_cases hseq : m ≠ 0 ∧ m = cur + 1
              · obtain ⟨hm0, hmeq⟩ := hseq
                subst hmeq
                cases post with
                | none =>
                  left
                  simp [submitChecked, hl, hc, add_user_history]
                | some link =>
                  right
                  refine ⟨cur + 1, link, ?_⟩
                  simp [submitChecked, hl, hc, set_current_number,
                    set_submission_link, add_user_history]
              · left; simp [submitChecked, hl, hc, hseq]

/-- `submit` preserves well-formedness of the message history. -/
theorem HistWF_submit (s : GameStore) (user : Nat)
    (caption post : Option String) (hwf : HistWF s.message_history) :
    HistWF (pySubmit s user caption post).2.message_history := by
  rcases submit_history_shape s user caption post with h | ⟨n, link, h⟩
  · rw [h]; exact hwf
  · rw [h]; exact HistWF_hset hwf n link

/-- C10.  For a user with an empty recorded submission set, the stats
entry is computed totally (the guard avoids taking the maximum of the
empty set): the latest number reported is the placeholder `N/A`, and the
link lookup keyed by that placeholder finds nothing in any well-formed
message history, whose fields are all decimal numbers. -/
theorem stats_empty_na (s : GameStore) (hwf : HistWF s.message_history) :
    statsEntry s [] = ("N/A", none) := by
  have h1 : statsLatest ([] : List Nat) = "N/A" := rfl
  unfold statsEntry
  rw [h1]
  have h2 : hget s.message_history "N/A" = none := by
    unfold hget
    rw [List.find?_eq_none.mpr]
    · rfl
    · intro p hp
      obtain ⟨m, hm⟩ := hwf p hp
      rw [hm]
      simpa using pyStrNat_ne_na m
  rw [h2]

/-- C10, witness for `stats_empty_na` at `playedStore`, whose history
holds the single numeric field `2`. -/
theorem stats_empty_na_witness : statsEntry playedStore [] = ("N/A", none) :=
  stats_empty_na playedStore (by
    intro p hp
    have hp' : p = ("2", "L") := by simpa [playedStore] using hp
    exact ⟨2, by rw [hp']; decide⟩)

end NumberGame
